import Mathlib

/-!
Verification development for the spdtest transfer engine (src/main.c).

The C program integrates libcurl's multi interface with a libuv event loop.
This file shallow-embeds the engine's own code:
  * `curl_read_callback` (upload data-requested callback, main.c:375-396),
  * `check_multi_info` (drain of completed transfers, main.c:653-693),
  * `handle_curl_timeout` (libcurl timer callback, main.c:596-614),
  * `on_uv_curl_timeout` / `on_uv_socket_event` (reactor callbacks),
  * `curl_perform_socket_action` (socket watcher lifecycle, main.c:697-765),
  * the registration/abort/report skeletons of `perform_download_test`
    and `perform_upload_test`.
libcurl itself (the multi-transfer subsystem) is external to the repository;
its observable behaviour at the interface (the still-running count returned by
`curl_multi_socket_action` and the CURLMSG_DONE messages returned by
`curl_multi_info_read`) is modelled by an oracle parameter.  size_t values are
Nat with arithmetic reduced mod 2^64 where the C code can wrap.
-/

namespace Spdtest

/-- 2^64, the modulus of C `size_t` arithmetic on the target platform. -/
def W64 : Nat := 18446744073709551616

/-- `upload_buffer_info_t` (main.c:22-25): the shared upload payload buffer.
`buffer = none` models a NULL pointer (failed malloc); `size` is the byte
count stored alongside it. -/
structure upload_buffer_info_t where
  buffer : Option (List Nat)
  size : Nat
deriving DecidableEq

/-- `upload_stream_context_t` (main.c:27-32): per-connection upload state.
`buffer_info = none` models a NULL pointer; `bytes_sent` is the send cursor. -/
structure upload_stream_context_t where
  easy_handle : Nat
  buffer_info : Option upload_buffer_info_t
  bytes_sent : Nat
deriving DecidableEq

/-- Result of one invocation of the read callback: `abort` models returning
`CURL_READFUNC_ABORT`; `ok dest ret ctx` models returning `ret` after writing
the byte list `dest` into the destination buffer, with `ctx` the updated
stream context. -/
inductive ReadResult where
  | abort
  | ok (dest : List Nat) (ret : Nat) (ctx : upload_stream_context_t)
deriving DecidableEq

/-- `curl_read_callback` (main.c:375-396).  Null checks on the context chain
return `CURL_READFUNC_ABORT`.  Otherwise
`buffer_max_provide = size * nitems`, `remaining_in_stream =
buffer_info->size - bytes_sent` (size_t arithmetic, hence the mod 2^64),
`to_copy` is the smaller of the two; when positive, `to_copy` bytes are
copied from the buffer at offset `bytes_sent` and the cursor advances. -/
def curl_read_callback (size nitems : Nat)
    (userp : Option upload_stream_context_t) : ReadResult :=
  match userp with
  | none => ReadResult.abort
  | some stream_ctx =>
    match stream_ctx.buffer_info with
    | none => ReadResult.abort
    | some bi =>
      match bi.buffer with
      | none => ReadResult.abort
      | some buf =>
        let buffer_max_provide := size * nitems % W64
        let remaining_in_stream := (bi.size + W64 - stream_ctx.bytes_sent) % W64
        let to_copy :=
          if buffer_max_provide < remaining_in_stream then buffer_max_provide
          else remaining_in_stream
        if 0 < to_copy then
          ReadResult.ok ((buf.drop stream_ctx.bytes_sent).take to_copy) to_copy
            { stream_ctx with bytes_sent := (stream_ctx.bytes_sent + to_copy) % W64 }
        else
          ReadResult.ok [] to_copy stream_ctx

/-- `k` successive invocations of the read callback with a fixed request
size, threading the stream context (an aborted call leaves it unchanged). -/
def readIter (size nitems : Nat) : Nat → upload_stream_context_t → upload_stream_context_t
  | 0, ctx => ctx
  | k + 1, ctx =>
    match curl_read_callback size nitems (some ctx) with
    | ReadResult.abort => ctx
    | ReadResult.ok _ _ ctx2 => readIter size nitems k ctx2

/-- A run of read-callback invocations with arbitrary per-call request sizes;
an abort ends the run. -/
def readSeq : List (Nat × Nat) → upload_stream_context_t → upload_stream_context_t
  | [], ctx => ctx
  | (size, nitems) :: rest, ctx =>
    match curl_read_callback size nitems (some ctx) with
    | ReadResult.abort => ctx
    | ReadResult.ok _ _ ctx2 => readSeq rest ctx2

lemma read_step (size nitems : Nat) (ctx : upload_stream_context_t)
    (bi : upload_buffer_info_t) (buf : List Nat)
    (hbi : ctx.buffer_info = some bi) (hbuf : bi.buffer = some buf)
    (hc : ctx.bytes_sent ≤ bi.size) (hlen : bi.size < W64)
    (hn : size * nitems < W64) :
    curl_read_callback size nitems (some ctx) =
      ReadResult.ok
        ((buf.drop ctx.bytes_sent).take (min (size * nitems) (bi.size - ctx.bytes_sent)))
        (min (size * nitems) (bi.size - ctx.bytes_sent))
        { ctx with bytes_sent := min (ctx.bytes_sent + size * nitems) bi.size } := by
  have hW : W64 = 18446744073709551616 := rfl
  obtain ⟨eh, bfi, bs⟩ := ctx
  obtain rfl : bfi = some bi := hbi
  replace hc : bs ≤ bi.size := hc
  simp only [curl_read_callback, hbuf]
  have h1 : size * nitems % W64 = size * nitems := Nat.mod_eq_of_lt hn
  have h2 : (bi.size + W64 - bs) % W64 = bi.size - bs := by
    rw [hW] at hlen ⊢
    omega
  simp only [h1, h2]
  have h3 : (if size * nitems < bi.size - bs then size * nitems
      else bi.size - bs) = min (size * nitems) (bi.size - bs) := by
    split <;> omega
  rw [h3]
  by_cases hz : 0 < min (size * nitems) (bi.size - bs)
  · rw [if_pos hz]
    have h4 : (bs + min (size * nitems) (bi.size - bs)) % W64
        = min (bs + size * nitems) bi.size := by
      rw [hW] at hlen hn ⊢
      omega
    rw [h4]
  · rw [if_neg hz]
    have h5 : min (size * nitems) (bi.size - bs) = 0 := by omega
    have h6 : min (bs + size * nitems) bi.size = bs := by omega
    rw [h5, h6]
    simp

lemma readIter_cursor (size nitems : Nat) (bi : upload_buffer_info_t) (buf : List Nat)
    (hbuf : bi.buffer = some buf) (hlen : bi.size < W64) (hn : size * nitems < W64) :
    ∀ (k : Nat) (ctx : upload_stream_context_t), ctx.buffer_info = some bi →
      ctx.bytes_sent ≤ bi.size →
      (readIter size nitems k ctx).bytes_sent
          = min (ctx.bytes_sent + k * (size * nitems)) bi.size
      ∧ (readIter size nitems k ctx).buffer_info = some bi := by
  intro k
  induction k with
  | zero =>
    intro ctx hbi hc
    constructor
    · simp only [readIter]
      omega
    · simpa [readIter] using hbi
  | succ k ih =>
    intro ctx hbi hc
    have hstep := read_step size nitems ctx bi buf hbi hbuf hc hlen hn
    have hred : readIter size nitems (k + 1) ctx
        = readIter size nitems k
            { ctx with bytes_sent := min (ctx.bytes_sent + size * nitems) bi.size } := by
      simp only [readIter, hstep]
    obtain ⟨h1', h2'⟩ :=
      ih { ctx with bytes_sent := min (ctx.bytes_sent + size * nitems) bi.size }
        (by simpa using hbi)
        (by
          show min (ctx.bytes_sent + size * nitems) bi.size ≤ bi.size
          omega)
    rw [hred]
    refine ⟨?_, h2'⟩
    rw [h1']
    have hmul : (k + 1) * (size * nitems) = k * (size * nitems) + size * nitems := by ring
    show min (min (ctx.bytes_sent + size * nitems) bi.size + k * (size * nitems)) bi.size
        = min (ctx.bytes_sent + (k + 1) * (size * nitems)) bi.size
    omega

lemma read_step_mono (size nitems : Nat) (ctx : upload_stream_context_t)
    (bi : upload_buffer_info_t)
    (hbi : ctx.buffer_info = some bi)
    (hc : ctx.bytes_sent ≤ bi.size) (hlen : bi.size < W64) :
    ∀ d r ctx2, curl_read_callback size nitems (some ctx) = ReadResult.ok d r ctx2 →
      ctx.bytes_sent ≤ ctx2.bytes_sent ∧ ctx2.bytes_sent ≤ bi.size
      ∧ ctx2.buffer_info = some bi := by
  have hW : W64 = 18446744073709551616 := rfl
  obtain ⟨eh, bfi, bs⟩ := ctx
  obtain rfl : bfi = some bi := hbi
  replace hc : bs ≤ bi.size := hc
  intro d r ctx2 h
  cases hb : bi.buffer with
  | none =>
    simp only [curl_read_callback, hb] at h
    exact absurd h (by simp)
  | some buf =>
    simp only [curl_read_callback, hb] at h
    rw [show (bi.size + W64 - bs) % W64 = bi.size - bs by rw [hW] at hlen ⊢; omega] at h
    have ht : (if size * nitems % W64 < bi.size - bs then size * nitems % W64
        else bi.size - bs) ≤ bi.size - bs := by
      split <;> omega
    set tc := (if size * nitems % W64 < bi.size - bs then size * nitems % W64
        else bi.size - bs) with htc
    split at h
    · injection h with hd hr hctx
      subst hr
      subst hctx
      have hmod : (bs + tc) % W64 = bs + tc := by
        apply Nat.mod_eq_of_lt
        rw [hW] at hlen ⊢
        omega
      refine ⟨?_, ?_, rfl⟩
      · show bs ≤ (bs + tc) % W64
        rw [hmod]
        omega
      · show (bs + tc) % W64 ≤ bi.size
        rw [hmod]
        omega
    · injection h with hd hr hctx
      subst hr
      subst hctx
      exact ⟨le_refl _, hc, rfl⟩

/-- C9: for every upload stream context whose cursor is within its buffer,
any run of data-requested callback invocations keeps `bytes_sent` between its
starting value and the buffer length (in particular `0 ≤ cursor ≤
buffer_length` throughout, since the quantification over `reqs` and `ctx`
covers every intermediate point of a run started at cursor 0), the cursor
never decreases, and the context keeps referencing the same shared buffer. -/
theorem upload_cursor_invariant :
    ∀ (reqs : List (Nat × Nat)) (ctx : upload_stream_context_t)
      (bi : upload_buffer_info_t),
      ctx.buffer_info = some bi → ctx.bytes_sent ≤ bi.size → bi.size < W64 →
      ctx.bytes_sent ≤ (readSeq reqs ctx).bytes_sent
      ∧ (readSeq reqs ctx).bytes_sent ≤ bi.size
      ∧ (readSeq reqs ctx).buffer_info = some bi := by
  intro reqs
  induction reqs with
  | nil =>
    intro ctx bi hbi hc _
    exact ⟨le_refl _, hc, hbi⟩
  | cons p rest ih =>
    intro ctx bi hbi hc hlen
    obtain ⟨size, nitems⟩ := p
    cases hcall : curl_read_callback size nitems (some ctx) with
    | abort =>
      simp only [readSeq, hcall]
      exact ⟨le_refl _, hc, hbi⟩
    | ok d r ctx2 =>
      simp only [readSeq, hcall]
      obtain ⟨hm1, hm2, hm3⟩ := read_step_mono size nitems ctx bi hbi hc hlen d r ctx2 hcall
      obtain ⟨k1, k2, k3⟩ := ih ctx2 bi hm3 hm2 hlen
      exact ⟨le_trans hm1 k1, k2, k3⟩

/-- Concrete upload stream context for the C9 witness. -/
def ctxW9 : upload_stream_context_t := ⟨0, some ⟨some [7, 7, 7], 3⟩, 1⟩

/-- C9 witness at a concrete context and request sequence. -/
theorem upload_cursor_invariant_witness :
    ctxW9.bytes_sent ≤ (readSeq [(1, 2), (1, 5)] ctxW9).bytes_sent
    ∧ (readSeq [(1, 2), (1, 5)] ctxW9).bytes_sent ≤ 3
    ∧ (readSeq [(1, 2), (1, 5)] ctxW9).buffer_info = some ⟨some [7, 7, 7], 3⟩ :=
  upload_cursor_invariant [(1, 2), (1, 5)] ctxW9 ⟨some [7, 7, 7], 3⟩ rfl
    (by decide) (by decide)

/-- C2: the data-requested callback on a valid context with cursor `c ≤
buffer_length` copies exactly `min (size * nitems) (buffer_length - c)` bytes
from the shared buffer at offset `c`, advances the cursor by that amount and
returns that amount; and for a 10485760-byte buffer served in 16384-byte
requests the cursor reaches the end after exactly 640 invocations (639 do not
suffice) while every invocation after the 640th copies nothing and returns 0. -/
theorem read_callback_spec :
    (∀ (size nitems : Nat) (ctx : upload_stream_context_t)
        (bi : upload_buffer_info_t) (buf : List Nat),
      ctx.buffer_info = some bi → bi.buffer = some buf → bi.size = buf.length →
      ctx.bytes_sent ≤ bi.size → bi.size < W64 → size * nitems < W64 →
      curl_read_callback size nitems (some ctx) =
        ReadResult.ok
          ((buf.drop ctx.bytes_sent).take
            (min (size * nitems) (bi.size - ctx.bytes_sent)))
          (min (size * nitems) (bi.size - ctx.bytes_sent))
          { ctx with
              bytes_sent :=
                ctx.bytes_sent + min (size * nitems) (bi.size - ctx.bytes_sent) }
      ∧ ((buf.drop ctx.bytes_sent).take
            (min (size * nitems) (bi.size - ctx.bytes_sent))).length
          = min (size * nitems) (bi.size - ctx.bytes_sent))
    ∧ (∀ (size nitems : Nat) (ctx : upload_stream_context_t)
        (bi : upload_buffer_info_t) (buf : List Nat),
      size * nitems = 16384 → ctx.buffer_info = some bi → bi.buffer = some buf →
      bi.size = 10485760 → ctx.bytes_sent = 0 →
      (readIter size nitems 639 ctx).bytes_sent < 10485760
      ∧ (readIter size nitems 640 ctx).bytes_sent = 10485760
      ∧ ∀ j, 640 ≤ j →
          curl_read_callback size nitems (some (readIter size nitems j ctx)) =
            ReadResult.ok [] 0 (readIter size nitems j ctx)) := by
  constructor
  · intro size nitems ctx bi buf hbi hbuf hsz hc hlen hn
    have hstep := read_step size nitems ctx bi buf hbi hbuf hc hlen hn
    have hadv : min (ctx.bytes_sent + size * nitems) bi.size
        = ctx.bytes_sent + min (size * nitems) (bi.size - ctx.bytes_sent) := by
      omega
    constructor
    · rw [hstep, hadv]
    · simp only [List.length_take, List.length_drop]
      omega
  · intro size nitems ctx bi buf hsn hbi hbuf hsz hc0
    have hlen : bi.size < W64 := by rw [hsz]; decide
    have hn : size * nitems < W64 := by rw [hsn]; decide
    have hcur := readIter_cursor size nitems bi buf hbuf hlen hn
    have h639 := (hcur 639 ctx hbi (by omega)).1
    have h640 := (hcur 640 ctx hbi (by omega)).1
    refine ⟨?_, ?_, ?_⟩
    · rw [h639, hc0, hsn, hsz]
      norm_num
    · rw [h640, hc0, hsn, hsz]
      norm_num
    · intro j hj
      have hcj := hcur j ctx hbi (by omega)
      have hjcur : (readIter size nitems j ctx).bytes_sent = bi.size := by
        rw [hcj.1, hc0, hsn, hsz]
        have h1 : 640 * 16384 ≤ j * 16384 := Nat.mul_le_mul_right _ hj
        omega
      have hstep := read_step size nitems (readIter size nitems j ctx) bi buf
        hcj.2 hbuf (le_of_eq hjcur) hlen hn
      rw [hstep, hjcur]
      have hmin0 : min (size * nitems) (bi.size - bi.size) = 0 := by omega
      have hminr : min (bi.size + size * nitems) bi.size = bi.size := by omega
      rw [hmin0, hminr, ← hjcur]
      rfl

/-- Small concrete upload stream context for the C2 witness (buffer of 4
bytes, cursor at 1). -/
def ctxW2s : upload_stream_context_t := ⟨1, some ⟨some [1, 2, 3, 4], 4⟩, 1⟩

/-- The 10485760-byte shared buffer of the C2 scenario. -/
def bufW2 : List Nat := List.replicate 10485760 0

/-- Buffer info of the C2 scenario. -/
def biW2 : upload_buffer_info_t := ⟨some bufW2, 10485760⟩

/-- Fresh stream context of the C2 scenario (cursor 0). -/
def ctxW2 : upload_stream_context_t := ⟨0, some biW2, 0⟩

/-- C2 witness: a concrete small call, and the 640-call scenario on the
10485760-byte buffer. -/
theorem read_callback_spec_witness :
    curl_read_callback 1 2 (some ctxW2s) =
      ReadResult.ok [2, 3] 2 { ctxW2s with bytes_sent := 3 }
    ∧ (readIter 1 16384 640 ctxW2).bytes_sent = 10485760
    ∧ (readIter 1 16384 639 ctxW2).bytes_sent < 10485760 := by
  have h1 := (read_callback_spec.1 1 2 ctxW2s ⟨some [1, 2, 3, 4], 4⟩ [1, 2, 3, 4]
    rfl rfl (by decide) (by decide) (by decide) (by decide)).1
  have h2 := read_callback_spec.2 1 16384 ctxW2 biW2 bufW2 (by norm_num) rfl rfl rfl rfl
  refine ⟨?_, h2.2.1, h2.1⟩
  rw [h1]
  decide

/-- State of the shared libuv deadline timer `timeout_timer` (main.c:11):
stopped, or armed with a first timeout and a repeat interval. -/
inductive TimerState where
  | stopped
  | armed (timeout_ms : Int) (repeat_ms : Int)
deriving DecidableEq

/-- `uv_is_active` on the timer handle. -/
def uv_is_active : TimerState → Bool
  | TimerState.stopped => false
  | TimerState.armed _ _ => true

/-- The two ways the engine pumps libcurl: `CURL_SOCKET_TIMEOUT` or socket
activity on a descriptor with a `CURL_CSELECT_*` mask. -/
inductive Trigger where
  | timeout
  | socketReady (sockfd : Int) (flags : Nat)
deriving DecidableEq

/-- One message from `curl_multi_info_read`: `isDone` is whether `msg->msg ==
CURLMSG_DONE`, `handle` identifies the easy handle, `result` is the CURLcode. -/
structure Msg where
  isDone : Bool
  handle : Nat
  result : Int
deriving DecidableEq

/-- What one `curl_multi_socket_action` call makes observable at the engine
boundary: the still-running count it writes and the completion messages it
queues for `curl_multi_info_read`. -/
structure Reaction where
  still_running : Nat
  completed : List Msg

/-- Oracle for the external multi-transfer subsystem, indexed by how many
pump calls have happened so far. -/
def Oracle := Nat → Reaction

/-- Engine-observable state: the multi handle's message queue and set of
registered easy handles, the global `running_handles`, the shared deadline
timer, the log of pump calls, the log of processed completion messages, and
the easy handles released so far (`curl_easy_cleanup` calls). -/
structure Engine where
  pending : List Msg
  registered : List Nat
  running_handles : Int
  timer : TimerState
  pumps : List Trigger
  outcomes : List Msg
  cleaned : List Nat
deriving DecidableEq

/-- `curl_multi_socket_action`: external subsystem call, modelled by the
oracle; logs the pump, appends the newly completed messages, and returns the
still-running count written through the out-parameter. -/
def curl_multi_socket_action (o : Oracle) (t : Trigger) (s : Engine) : Engine × Nat :=
  let r := o s.pumps.length
  ({ s with pumps := s.pumps ++ [t], pending := s.pending ++ r.completed },
   r.still_running)

/-- The `while ((msg = curl_multi_info_read(...)))` loop body of
`check_multi_info` (main.c:658-684): for each `CURLMSG_DONE` message, record
the outcome, `curl_multi_remove_handle`, and decrement the local running
counter.  Returns the remaining registered handles, the outcome log, and the
final counter. -/
def drainMsgs : List Msg → List Nat → List Msg → Int → List Nat × List Msg × Int
  | [], reg, outs, c => (reg, outs, c)
  | m :: rest, reg, outs, c =>
    if m.isDone then
      drainMsgs rest (reg.filter (fun h => h != m.handle)) (outs ++ [m]) (c - 1)
    else
      drainMsgs rest reg outs c

/-- `check_multi_info` (main.c:653-693): drain all completion messages,
update the global `running_handles`, and stop the shared timer when the
count has reached zero and the timer is active.  Never calls
`curl_easy_cleanup` (main.c:680 comment). -/
def check_multi_info (s : Engine) : Engine :=
  let reg := (drainMsgs s.pending s.registered s.outcomes s.running_handles).1
  let outs := (drainMsgs s.pending s.registered s.outcomes s.running_handles).2.1
  let c := (drainMsgs s.pending s.registered s.outcomes s.running_handles).2.2
  { s with
      pending := [],
      registered := reg,
      outcomes := outs,
      running_handles := c,
      timer :=
        if c = 0 ∧ uv_is_active s.timer = true then TimerState.stopped
        else s.timer }

/-- `on_uv_curl_timeout` (main.c:580-593): pump with `CURL_SOCKET_TIMEOUT`,
store the reported still-running count, then drain. -/
def on_uv_curl_timeout (o : Oracle) (s : Engine) : Engine :=
  let r := curl_multi_socket_action o Trigger.timeout s
  check_multi_info { r.1 with running_handles := (r.2 : Int) }

def UV_READABLE : Nat := 1

def UV_WRITABLE : Nat := 2

def CURL_CSELECT_IN : Nat := 1

def CURL_CSELECT_OUT : Nat := 2

/-- `on_uv_socket_event` (main.c:617-641): translate the libuv event mask to
`CURL_CSELECT_*` flags, pump with the socket trigger, store the still-running
count, then drain.  A negative `status` is only reported, not acted on. -/
def on_uv_socket_event (o : Oracle) (status : Int) (events : Nat) (sockfd : Int)
    (s : Engine) : Engine :=
  let flags :=
    (if events &&& UV_READABLE ≠ 0 then CURL_CSELECT_IN else 0) |||
    (if events &&& UV_WRITABLE ≠ 0 then CURL_CSELECT_OUT else 0)
  let r := curl_multi_socket_action o (Trigger.socketReady sockfd flags) s
  check_multi_info { r.1 with running_handles := (r.2 : Int) }

/-- `handle_curl_timeout` (main.c:596-614), libcurl's timer callback: a
negative timeout stops the shared timer; a zero timeout pumps with
`CURL_SOCKET_TIMEOUT` and drains inline; a positive timeout (re)starts the
shared timer as a one-shot (`repeat = 0`).  Always returns 0. -/
def handle_curl_timeout (o : Oracle) (timeout_ms : Int) (s : Engine) : Engine × Int :=
  if timeout_ms < 0 then
    ({ s with timer := TimerState.stopped }, 0)
  else
    if timeout_ms = 0 then
      let r := curl_multi_socket_action o Trigger.timeout s
      (check_multi_info { r.1 with running_handles := (r.2 : Int) }, 0)
    else
      ({ s with timer := TimerState.armed timeout_ms 0 }, 0)

/-- C1: the timer callback stops the shared timer for a negative timeout
(touching nothing else); for a zero timeout it performs one pump with the
timeout trigger followed by a full drain, inline, before returning (the pump
log grows by exactly one `Timeout` entry and the message queue is left
drained); for a positive timeout it re-arms the shared timer as a one-shot
with that timeout, replacing any previous arming, without pumping. -/
theorem handle_curl_timeout_spec :
    ∀ (o : Oracle) (t : Int) (s : Engine),
      (t < 0 → handle_curl_timeout o t s = ({ s with timer := TimerState.stopped }, 0))
      ∧ (t = 0 →
          handle_curl_timeout o t s =
            (check_multi_info
              { (curl_multi_socket_action o Trigger.timeout s).1 with
                  running_handles :=
                    ((curl_multi_socket_action o Trigger.timeout s).2 : Int) }, 0)
          ∧ (handle_curl_timeout o t s).1.pumps = s.pumps ++ [Trigger.timeout]
          ∧ (handle_curl_timeout o t s).1.pending = [])
      ∧ (0 < t → handle_curl_timeout o t s = ({ s with timer := TimerState.armed t 0 }, 0)) := by
  intro o t s
  refine ⟨?_, ?_, ?_⟩
  · intro ht
    rw [handle_curl_timeout, if_pos ht]
  · intro ht
    subst ht
    rw [handle_curl_timeout]
    norm_num
    exact ⟨rfl, rfl⟩
  · intro ht
    rw [handle_curl_timeout, if_neg (by omega), if_neg (by omega)]

/-- Trivial oracle for witnesses: every pump reports nothing completed. -/
def oW : Oracle := fun _ => ⟨0, []⟩

/-- Quiescent engine state for witnesses. -/
def eW : Engine := ⟨[], [], 0, TimerState.armed 5 0, [], [], []⟩

/-- C1 witness at timeouts -1, 0 and 7 on a concrete engine state. -/
theorem handle_curl_timeout_spec_witness :
    handle_curl_timeout oW (-1) eW = ({ eW with timer := TimerState.stopped }, 0)
    ∧ (handle_curl_timeout oW 0 eW).1.pumps = eW.pumps ++ [Trigger.timeout]
    ∧ handle_curl_timeout oW 7 eW = ({ eW with timer := TimerState.armed 7 0 }, 0) :=
  ⟨(handle_curl_timeout_spec oW (-1) eW).1 (by norm_num),
   ((handle_curl_timeout_spec oW 0 eW).2.1 rfl).2.1,
   (handle_curl_timeout_spec oW 7 eW).2.2 (by norm_num)⟩

/-- C4: draining completed transfers is idempotent — a second
`check_multi_info` with no intervening pump leaves the whole engine state
(outcome log, registered handles, running count, timer, everything)
exactly as after the first call. -/
theorem check_multi_info_idem :
    ∀ s : Engine, check_multi_info (check_multi_info s) = check_multi_info s := by
  intro s
  simp only [check_multi_info, drainMsgs]
  by_cases hc : (drainMsgs s.pending s.registered s.outcomes s.running_handles).2.2 = 0
  · cases htm : s.timer with
    | stopped => simp [hc, htm, uv_is_active]
    | armed a b => simp [hc, htm, uv_is_active]
  · simp [hc]

/-- C10: after any `check_multi_info` call whose resulting active-transfer
count is 0, the shared deadline timer is stopped. -/
theorem check_multi_info_stops_timer :
    ∀ s : Engine, (check_multi_info s).running_handles = 0 →
      (check_multi_info s).timer = TimerState.stopped := by
  intro s h
  simp only [check_multi_info] at h ⊢
  cases htm : s.timer with
  | stopped => simp [h, htm, uv_is_active]
  | armed a b => simp [h, htm, uv_is_active]

/-- Engine state with one completed transfer pending, for the C10 witness. -/
def eW10 : Engine := ⟨[⟨true, 5, 0⟩], [5], 1, TimerState.armed 9 0, [], [], []⟩

/-- C10 witness: draining the last completed transfer stops the timer. -/
theorem check_multi_info_stops_timer_witness :
    (check_multi_info eW10).timer = TimerState.stopped :=
  check_multi_info_stops_timer eW10 (by decide)

def CURL_POLL_NONE : Nat := 0

def CURL_POLL_IN : Nat := 1

def CURL_POLL_OUT : Nat := 2

def CURL_POLL_INOUT : Nat := 3

def CURL_POLL_REMOVE : Nat := 4

def CURL_SOCKET_OK : Int := 0

def CURL_SOCKET_BAD : Int := -1

/-- A live `uv_poll_t` watcher: currently watching an event mask, or
stopped (`uv_poll_stop`) but not closed. -/
inductive PollMode where
  | watching (events : Nat)
  | stopped
deriving DecidableEq

/-- State of the per-socket watcher machinery: `assigned` is libcurl's
per-descriptor back-reference table (`curl_multi_assign`, keyed by sockfd,
value the poll-handle id); `polls` the live (allocated, not yet closed)
`uv_poll_t` handles with their mode; `freed` the ids of handles released via
`uv_close(.., free_poll_handle)`; `nextId` the allocator counter. -/
structure PollTable where
  assigned : List (Nat × Nat)
  polls : List (Nat × PollMode)
  freed : List Nat
  nextId : Nat
deriving DecidableEq

/-- `uv_poll_stop` on handle `w`: its mode becomes `stopped`. -/
def uv_poll_stop (w : Nat) (polls : List (Nat × PollMode)) : List (Nat × PollMode) :=
  polls.map (fun p => if p.1 = w then (w, PollMode.stopped) else p)

/-- `uv_poll_start` on handle `w` with an event mask: the subscription is
replaced, not extended. -/
def uv_poll_start (w : Nat) (events : Nat)
    (polls : List (Nat × PollMode)) : List (Nat × PollMode) :=
  polls.map (fun p => if p.1 = w then (w, PollMode.watching events) else p)

/-- The tail of `curl_perform_socket_action` after a poll handle `w` exists
for the descriptor (main.c:737-763): compute the uv event mask from the curl
action; a non-empty mask (re)starts polling (on failure a freshly created
handle is closed, freed, unassigned and `CURL_SOCKET_BAD` returned, while a
pre-existing handle is left as is); an empty mask stops polling without
closing. -/
def socket_action_watch (startOk : Bool) (sockfd action : Nat) (w : Nat)
    (isNew : Bool) (t : PollTable) : PollTable × Int :=
  let events :=
    (if action = CURL_POLL_IN ∨ action = CURL_POLL_INOUT then UV_READABLE else 0) |||
    (if action = CURL_POLL_OUT ∨ action = CURL_POLL_INOUT then UV_WRITABLE else 0)
  if events ≠ 0 then
    if startOk then
      ({ t with polls := uv_poll_start w events t.polls }, CURL_SOCKET_OK)
    else
      if isNew then
        ({ t with
            polls := t.polls.filter (fun p => p.1 != w),
            freed := t.freed ++ [w],
            assigned := t.assigned.filter (fun p => p.1 != sockfd) }, CURL_SOCKET_BAD)
      else
        (t, CURL_SOCKET_OK)
  else
    ({ t with polls := uv_poll_stop w t.polls }, CURL_SOCKET_OK)

/-- `curl_perform_socket_action` (main.c:697-765), libcurl's socket callback.
`allocOk`, `initOk`, `assignOk`, `startOk` model the success of `malloc`,
`uv_poll_init_socket`, `curl_multi_assign` and `uv_poll_start`.  The stored
back-reference `socketp` is looked up from the assignment table.  On
`CURL_POLL_REMOVE` with an existing watcher: `uv_poll_stop`, close/free the
handle, and clear the assignment.  Otherwise ensure a watcher exists
(allocating and assigning a fresh one when `socketp` is NULL) and delegate to
the watch/stop tail. -/
def curl_perform_socket_action (allocOk initOk assignOk startOk : Bool)
    (sockfd action : Nat) (t : PollTable) : PollTable × Int :=
  let socketp := t.assigned.lookup sockfd
  if action = CURL_POLL_REMOVE then
    match socketp with
    | some w =>
      ({ t with
          polls := (uv_poll_stop w t.polls).filter (fun p => p.1 != w),
          freed := t.freed ++ [w],
          assigned := t.assigned.filter (fun p => p.1 != sockfd) }, CURL_SOCKET_OK)
    | none => (t, CURL_SOCKET_OK)
  else
    match socketp with
    | some w => socket_action_watch startOk sockfd action w false t
    | none =>
      if allocOk = false then (t, -1)
      else if initOk = false then (t, -1)
      else
        let w := t.nextId
        let t1 := { t with
          nextId := t.nextId + 1,
          polls := t.polls ++ [(w, PollMode.stopped)] }
        if assignOk = false then
          ({ t1 with
              polls := t1.polls.filter (fun p => p.1 != w),
              freed := t1.freed ++ [w] }, CURL_SOCKET_BAD)
        else
          let t2 := { t1 with assigned := t1.assigned ++ [(sockfd, w)] }
          socket_action_watch startOk sockfd action w true t2

lemma lookup_filter_ne (l : List (Nat × Nat)) (fd : Nat) :
    (l.filter (fun p => p.1 != fd)).lookup fd = none := by
  induction l with
  | nil => rfl
  | cons p rest ih =>
    obtain ⟨k, v⟩ := p
    by_cases h : k = fd
    · rw [List.filter_cons_of_neg (by simp [h])]
      exact ih
    · rw [List.filter_cons_of_pos (by simp [h]), List.lookup_cons]
      have hbe : (fd == k) = false := by simp [Ne.symm h]
      rw [hbe]
      simpa using ih

/-- C5: the socket callback on a descriptor with an existing watcher:
`CURL_POLL_REMOVE` stops and releases the watcher (it is gone from the live
set and appears in the freed list) and clears libcurl's stored
back-reference for the descriptor; a watch request with empty interest
(`CURL_POLL_NONE`) stops the watcher's notifications but releases nothing
and keeps the back-reference, so it can be re-armed later. -/
theorem socket_action_spec :
    ∀ (aOk iOk gOk sOk : Bool) (fd w : Nat) (t : PollTable) (m : PollMode),
      t.assigned.lookup fd = some w → (w, m) ∈ t.polls →
      ((curl_perform_socket_action aOk iOk gOk sOk fd CURL_POLL_REMOVE
          t).1.assigned.lookup fd = none
        ∧ (∀ m2 : PollMode,
            (w, m2) ∉ (curl_perform_socket_action aOk iOk gOk sOk fd CURL_POLL_REMOVE
              t).1.polls)
        ∧ w ∈ (curl_perform_socket_action aOk iOk gOk sOk fd CURL_POLL_REMOVE t).1.freed
        ∧ (curl_perform_socket_action aOk iOk gOk sOk fd CURL_POLL_REMOVE t).2
            = CURL_SOCKET_OK)
      ∧ ((curl_perform_socket_action aOk iOk gOk sOk fd CURL_POLL_NONE t).1.assigned
            = t.assigned
        ∧ (w, PollMode.stopped)
            ∈ (curl_perform_socket_action aOk iOk gOk sOk fd CURL_POLL_NONE t).1.polls
        ∧ (curl_perform_socket_action aOk iOk gOk sOk fd CURL_POLL_NONE t).1.freed
            = t.freed
        ∧ (curl_perform_socket_action aOk iOk gOk sOk fd CURL_POLL_NONE t).2
            = CURL_SOCKET_OK) := by
  intro aOk iOk gOk sOk fd w t m hlook hm
  constructor
  · have hrem : curl_perform_socket_action aOk iOk gOk sOk fd CURL_POLL_REMOVE t
        = ({ t with
              polls := (uv_poll_stop w t.polls).filter (fun p => p.1 != w),
              freed := t.freed ++ [w],
              assigned := t.assigned.filter (fun p => p.1 != fd) }, CURL_SOCKET_OK) := by
      simp [curl_perform_socket_action, hlook]
    rw [hrem]
    refine ⟨lookup_filter_ne t.assigned fd, ?_, by simp, rfl⟩
    intro m2 hmem
    rw [List.mem_filter] at hmem
    simp at hmem
  · have hnone : curl_perform_socket_action aOk iOk gOk sOk fd CURL_POLL_NONE t
        = ({ t with polls := uv_poll_stop w t.polls }, CURL_SOCKET_OK) := by
      simp [curl_perform_socket_action, hlook, socket_action_watch,
        CURL_POLL_NONE, CURL_POLL_REMOVE, CURL_POLL_IN, CURL_POLL_OUT,
        CURL_POLL_INOUT, UV_READABLE, UV_WRITABLE]
    rw [hnone]
    refine ⟨rfl, ?_, rfl, rfl⟩
    exact List.mem_map.2 ⟨(w, m), hm, by simp⟩

/-- Concrete watcher table for the C5 witness: descriptor 3 has watcher 7,
currently watching readable. -/
def tW5 : PollTable := ⟨[(3, 7)], [(7, PollMode.watching 1)], [], 8⟩

/-- C5 witness: removing descriptor 3 clears its back-reference; a
none-interest watch keeps watcher 7 alive but stopped. -/
theorem socket_action_spec_witness :
    (curl_perform_socket_action true true true true 3 CURL_POLL_REMOVE
        tW5).1.assigned.lookup 3 = none
    ∧ (7, PollMode.stopped)
        ∈ (curl_perform_socket_action true true true true 3 CURL_POLL_NONE tW5).1.polls := by
  have h := socket_action_spec true true true true 3 7 tW5 (PollMode.watching 1)
    (by decide) (by decide)
  exact ⟨h.1.1, h.2.2.1⟩

/-- One reactor event delivered by `uv_run`: the shared curl timer fires, or
a polled socket reports readiness. -/
inductive LoopEvent where
  | timerFired
  | socketEvent (sockfd : Int) (status : Int) (events : Nat)

/-- Dispatch of one reactor event.  A one-shot timer that fires becomes
inactive before its callback runs (libuv semantics, `repeat = 0`); a stopped
timer does not fire. -/
def loop_step (o : Oracle) (s : Engine) : LoopEvent → Engine
  | LoopEvent.timerFired =>
    if uv_is_active s.timer = true then
      on_uv_curl_timeout o { s with timer := TimerState.stopped }
    else s
  | LoopEvent.socketEvent fd st evmask => on_uv_socket_event o st evmask fd s

/-- `uv_run(loop, UV_RUN_DEFAULT)` as processing of a finite event trace. -/
def uv_run (o : Oracle) (evs : List LoopEvent) (s : Engine) : Engine :=
  evs.foldl (loop_step o) s

/-- Per-connection success/failure of each fallible step of the download
registration loop (main.c:263-296): `curl_easy_init`, the URL setopt, the
write-function setopt, `curl_multi_add_handle`. -/
structure ConnAttempt where
  init_ok : Bool
  url_ok : Bool
  write_ok : Bool
  add_ok : Bool
deriving DecidableEq

/-- Whether a download connection attempt survives every fallible step. -/
def attemptSuccess (a : ConnAttempt) : Bool :=
  a.init_ok && a.url_ok && a.write_ok && a.add_ok

/-- The download registration loop (main.c:263-296), with connection `i`
identified by its index: returns the successfully added easy handles and the
handles cleaned up (`curl_easy_cleanup`) during the loop after a failed
setopt or `curl_multi_add_handle`.  A failed `curl_easy_init` creates no
handle; every failure `continue`s to the next connection. -/
def download_register : List ConnAttempt → Nat → List Nat × List Nat
  | [], _ => ([], [])
  | a :: rest, i =>
    let r := download_register rest (i + 1)
    if a.init_ok = false then r
    else if a.url_ok = false then (r.1, i :: r.2)
    else if a.write_ok = false then (r.1, i :: r.2)
    else if a.add_ok = false then (r.1, i :: r.2)
    else (i :: r.1, r.2)

/-- Per-connection success/failure of each fallible step of the upload
registration loop (main.c:436-494): `curl_easy_init`, the URL, UPLOAD,
READFUNCTION, READDATA and INFILESIZE_LARGE setopts, `curl_multi_add_handle`. -/
structure ConnAttemptU where
  init_ok : Bool
  url_ok : Bool
  upload_ok : Bool
  readfn_ok : Bool
  readdata_ok : Bool
  infilesize_ok : Bool
  add_ok : Bool
deriving DecidableEq

/-- Whether an upload connection attempt survives every fallible step. -/
def attemptSuccessU (a : ConnAttemptU) : Bool :=
  a.init_ok && a.url_ok && a.upload_ok && a.readfn_ok && a.readdata_ok
    && a.infilesize_ok && a.add_ok

/-- The upload registration loop (main.c:436-494), mirroring
`download_register` with the upload-specific option cascade. -/
def upload_register : List ConnAttemptU → Nat → List Nat × List Nat
  | [], _ => ([], [])
  | a :: rest, i =>
    let r := upload_register rest (i + 1)
    if a.init_ok = false then r
    else if a.url_ok = false then (r.1, i :: r.2)
    else if a.upload_ok = false then (r.1, i :: r.2)
    else if a.readfn_ok = false then (r.1, i :: r.2)
    else if a.readdata_ok = false then (r.1, i :: r.2)
    else if a.infilesize_ok = false then (r.1, i :: r.2)
    else if a.add_ok = false then (r.1, i :: r.2)
    else (i :: r.1, r.2)

/-- How a run ended: aborted with "no connections initiated", aborted for
lack of upload data, or ran the event loop to completion. -/
inductive RunOutcome where
  | abortNoConnections
  | abortNoData
  | completed
deriving DecidableEq

/-- Observable trace of one `perform_*_test` run: its outcome, whether the
reactor loop was entered, the connection count passed to
`print_test_results`, the handles released during the registration loop, the
engine state entering and leaving the loop, and the handles released by the
final cleanup loop. -/
structure RunTrace where
  outcome : RunOutcome
  loopEntered : Bool
  reportConnections : Option Nat
  setupCleaned : List Nat
  loopStart : Option Engine
  loopEnd : Option Engine
  finalCleaned : List Nat
deriving DecidableEq

/-- `perform_download_test` (main.c:233-346) reduced to its engine-visible
skeleton: register connections; with zero registered, report the abort and
never run the loop (main.c:297-305); otherwise set `running_handles`, run
the loop, report `successfully_added_handles`, and only then
`curl_easy_cleanup` every added handle (main.c:337-342). -/
def perform_download_test (attempts : List ConnAttempt) (t0 : TimerState)
    (o : Oracle) (evs : List LoopEvent) : RunTrace :=
  let reg := download_register attempts 0
  if reg.1 = [] then
    { outcome := RunOutcome.abortNoConnections, loopEntered := false,
      reportConnections := none, setupCleaned := reg.2,
      loopStart := none, loopEnd := none, finalCleaned := [] }
  else
    let s0 : Engine := ⟨[], reg.1, (reg.1.length : Int), t0, [], [], []⟩
    let s1 := uv_run o evs s0
    { outcome := RunOutcome.completed, loopEntered := true,
      reportConnections := some reg.1.length, setupCleaned := reg.2,
      loopStart := some s0, loopEnd := some s1, finalCleaned := reg.1 }

/-- `perform_upload_test` (main.c:400-548) reduced to its engine-visible
skeleton: a failed payload allocation aborts before registering anything
(main.c:410-413); zero registered connections abort without the loop
(main.c:495-504); otherwise run the loop, report, and clean up the added
handles afterwards (main.c:539-545). -/
def perform_upload_test (allocOk : Bool) (attempts : List ConnAttemptU)
    (t0 : TimerState) (o : Oracle) (evs : List LoopEvent) : RunTrace :=
  if allocOk = false then
    { outcome := RunOutcome.abortNoData, loopEntered := false,
      reportConnections := none, setupCleaned := [],
      loopStart := none, loopEnd := none, finalCleaned := [] }
  else
    let reg := upload_register attempts 0
    if reg.1 = [] then
      { outcome := RunOutcome.abortNoConnections, loopEntered := false,
        reportConnections := none, setupCleaned := reg.2,
        loopStart := none, loopEnd := none, finalCleaned := [] }
    else
      let s0 : Engine := ⟨[], reg.1, (reg.1.length : Int), t0, [], [], []⟩
      let s1 := uv_run o evs s0
      { outcome := RunOutcome.completed, loopEntered := true,
        reportConnections := some reg.1.length, setupCleaned := reg.2,
        loopStart := some s0, loopEnd := some s1, finalCleaned := reg.1 }

lemma drainMsgs_subset :
    ∀ (msgs : List Msg) (reg : List Nat) (outs : List Msg) (c : Int) (h : Nat),
      h ∈ (drainMsgs msgs reg outs c).1 → h ∈ reg := by
  intro msgs
  induction msgs with
  | nil => intro reg outs c h hm; exact hm
  | cons m rest ih =>
    intro reg outs c h hm
    rw [drainMsgs] at hm
    by_cases hd : m.isDone
    · rw [if_pos hd] at hm
      have := ih _ _ _ h hm
      exact (List.mem_filter.1 this).1
    · rw [if_neg hd] at hm
      exact ih _ _ _ h hm

lemma drainMsgs_removes :
    ∀ (msgs : List Msg) (reg : List Nat) (outs : List Msg) (c : Int) (m : Msg),
      m ∈ msgs → m.isDone = true → m.handle ∉ (drainMsgs msgs reg outs c).1 := by
  intro msgs
  induction msgs with
  | nil => intro reg outs c m hm; cases hm
  | cons a rest ih =>
    intro reg outs c m hm hdone
    rcases List.mem_cons.1 hm with heq | htail
    · subst heq
      rw [drainMsgs, if_pos hdone]
      intro hmem
      have := drainMsgs_subset _ _ _ _ _ hmem
      rw [List.mem_filter] at this
      simp at this
    · rw [drainMsgs]
      by_cases hd : a.isDone
      · rw [if_pos hd]
        exact ih _ _ _ m htail hdone
      · rw [if_neg hd]
        exact ih _ _ _ m htail hdone

lemma loop_step_cleaned (o : Oracle) (s : Engine) (e : LoopEvent) :
    (loop_step o s e).cleaned = s.cleaned := by
  cases e with
  | timerFired =>
    rw [loop_step]
    split
    · rfl
    · rfl
  | socketEvent fd st evmask => rfl

lemma uv_run_cleaned (o : Oracle) :
    ∀ (evs : List LoopEvent) (s : Engine), (uv_run o evs s).cleaned = s.cleaned := by
  intro evs
  induction evs with
  | nil => intro s; rfl
  | cons e rest ih =>
    intro s
    show (uv_run o rest (loop_step o s e)).cleaned = s.cleaned
    rw [ih, loop_step_cleaned]

lemma download_register_ge :
    ∀ (l : List ConnAttempt) (i h : Nat),
      (h ∈ (download_register l i).1 → i ≤ h)
      ∧ (h ∈ (download_register l i).2 → i ≤ h) := by
  intro l
  induction l with
  | nil => intro i h; simp [download_register]
  | cons a rest ih =>
    intro i h
    rw [download_register]
    split
    · exact ⟨fun hm => le_trans (by omega) ((ih (i + 1) h).1 hm),
        fun hm => le_trans (by omega) ((ih (i + 1) h).2 hm)⟩
    · split
      · refine ⟨fun hm => le_trans (by omega) ((ih (i + 1) h).1 hm), fun hm => ?_⟩
        rcases List.mem_cons.1 hm with heq | htail
        · omega
        · exact le_trans (by omega) ((ih (i + 1) h).2 htail)
      · split
        · refine ⟨fun hm => le_trans (by omega) ((ih (i + 1) h).1 hm), fun hm => ?_⟩
          rcases List.mem_cons.1 hm with heq | htail
          · omega
          · exact le_trans (by omega) ((ih (i + 1) h).2 htail)
        · split
          · refine ⟨fun hm => le_trans (by omega) ((ih (i + 1) h).1 hm), fun hm => ?_⟩
            rcases List.mem_cons.1 hm with heq | htail
            · omega
            · exact le_trans (by omega) ((ih (i + 1) h).2 htail)
          · refine ⟨fun hm => ?_, fun hm => le_trans (by omega) ((ih (i + 1) h).2 hm)⟩
            rcases List.mem_cons.1 hm with heq | htail
            · omega
            · exact le_trans (by omega) ((ih (i + 1) h).1 htail)

lemma download_register_disjoint :
    ∀ (l : List ConnAttempt) (i h : Nat),
      h ∈ (download_register l i).1 → h ∉ (download_register l i).2 := by
  intro l
  induction l with
  | nil => intro i h hm; simp [download_register] at hm
  | cons a rest ih =>
    intro i h hm hc
    rw [download_register] at hm hc
    revert hm hc
    split
    · intro hm hc
      exact ih (i + 1) h hm hc
    · split
      · intro hm hc
        rcases List.mem_cons.1 hc with heq | htail
        · have hge := (download_register_ge rest (i + 1) h).1 hm
          omega
        · exact ih (i + 1) h hm htail
      · split
        · intro hm hc
          rcases List.mem_cons.1 hc with heq | htail
          · have hge := (download_register_ge rest (i + 1) h).1 hm
            omega
          · exact ih (i + 1) h hm htail
        · split
          · intro hm hc
            rcases List.mem_cons.1 hc with heq | htail
            · have hge := (download_register_ge rest (i + 1) h).1 hm
              omega
            · exact ih (i + 1) h hm htail
          · intro hm hc
            rcases List.mem_cons.1 hm with heq | htail
            · have hge := (download_register_ge rest (i + 1) h).2 hc
              omega
            · exact ih (i + 1) h htail hc

lemma download_register_lengths :
    ∀ (l : List ConnAttempt) (i : Nat),
      (download_register l i).1.length = (l.filter attemptSuccess).length
      ∧ (download_register l i).1.length + (download_register l i).2.length
          = (l.filter (fun a => a.init_ok)).length := by
  intro l
  induction l with
  | nil => intro i; simp [download_register]
  | cons a rest ih =>
    intro i
    obtain ⟨hl1, hl2⟩ := ih (i + 1)
    obtain ⟨b1, b2, b3, b4⟩ := a
    cases b1 <;> cases b2 <;> cases b3 <;> cases b4 <;>
      simp [download_register, attemptSuccess, List.filter_cons, hl1, hl2] <;>
      omega

lemma upload_register_lengths :
    ∀ (l : List ConnAttemptU) (i : Nat),
      (upload_register l i).1.length = (l.filter attemptSuccessU).length
      ∧ (upload_register l i).1.length + (upload_register l i).2.length
          = (l.filter (fun a => a.init_ok)).length := by
  intro l
  induction l with
  | nil => intro i; simp [upload_register]
  | cons a rest ih =>
    intro i
    obtain ⟨hl1, hl2⟩ := ih (i + 1)
    obtain ⟨b1, b2, b3, b4, b5, b6, b7⟩ := a
    cases b1 <;> cases b2 <;> cases b3 <;> cases b4 <;> cases b5 <;> cases b6 <;>
      cases b7 <;>
      simp [upload_register, attemptSuccessU, List.filter_cons, hl1, hl2] <;>
      omega

/-- C3: draining completed transfers unregisters every completed transfer's
easy handle from the multi handle but never releases a handle (the cleaned
list is untouched by `check_multi_info` and by the whole event loop); in a
download run the handles are released only by the final cleanup after the
loop has exited, and — when the loop exits with every transfer drained out
of the multi handle — no handle is released while still registered; handles
released during the registration loop are never among the registered ones. -/
theorem drain_ownership_spec :
    (∀ s : Engine, (check_multi_info s).cleaned = s.cleaned)
    ∧ (∀ (s : Engine) (m : Msg), m ∈ s.pending → m.isDone = true →
        m.handle ∉ (check_multi_info s).registered)
    ∧ (∀ (o : Oracle) (evs : List LoopEvent) (s : Engine),
        (uv_run o evs s).cleaned = s.cleaned)
    ∧ (∀ (attempts : List ConnAttempt) (t0 : TimerState) (o : Oracle)
        (evs : List LoopEvent) (sEnd : Engine),
        (perform_download_test attempts t0 o evs).loopEnd = some sEnd →
        sEnd.cleaned = []
        ∧ (sEnd.registered = [] →
            ∀ h2 ∈ (perform_download_test attempts t0 o evs).finalCleaned,
              h2 ∉ sEnd.registered)
        ∧ ∀ h2 ∈ (perform_download_test attempts t0 o evs).setupCleaned,
            h2 ∉ (perform_download_test attempts t0 o evs).finalCleaned) := by
  refine ⟨fun s => rfl, ?_, uv_run_cleaned, ?_⟩
  · intro s m hm hd
    exact drainMsgs_removes s.pending s.registered s.outcomes s.running_handles m hm hd
  · intro attempts t0 o evs sEnd hEnd
    by_cases hreg : (download_register attempts 0).1 = []
    · rw [perform_download_test] at hEnd
      simp [hreg] at hEnd
    · have hrun : perform_download_test attempts t0 o evs
          = { outcome := RunOutcome.completed, loopEntered := true,
              reportConnections := some (download_register attempts 0).1.length,
              setupCleaned := (download_register attempts 0).2,
              loopStart := some ⟨[], (download_register attempts 0).1,
                ((download_register attempts 0).1.length : Int), t0, [], [], []⟩,
              loopEnd := some (uv_run o evs ⟨[], (download_register attempts 0).1,
                ((download_register attempts 0).1.length : Int), t0, [], [], []⟩),
              finalCleaned := (download_register attempts 0).1 } := by
        rw [perform_download_test]
        simp [hreg]
      rw [hrun] at hEnd
      have hsEnd : uv_run o evs ⟨[], (download_register attempts 0).1,
          ((download_register attempts 0).1.length : Int), t0, [], [], []⟩ = sEnd :=
        Option.some.inj hEnd
      refine ⟨?_, ?_, ?_⟩
      · rw [← hsEnd, uv_run_cleaned]
      · intro hempty h2 _
        rw [hempty]
        simp
      · rw [hrun]
        intro h2 hmem hmem2
        exact download_register_disjoint attempts 0 h2 hmem2 hmem

/-- Oracle for the C3 witness: every pump completes handle 0 successfully. -/
def oW3 : Oracle := fun _ => ⟨0, [⟨true, 0, 0⟩]⟩

/-- The engine state in which the C3 witness run leaves the loop. -/
def sEndW3 : Engine :=
  ⟨[], [], -1, TimerState.stopped, [Trigger.timeout], [⟨true, 0, 0⟩], []⟩

/-- C3 witness: a one-connection run whose single transfer completes on the
first timer tick; nothing is released during the loop and handle 0 is no
longer registered when released. -/
theorem drain_ownership_spec_witness :
    sEndW3.cleaned = [] ∧ (0 : Nat) ∉ sEndW3.registered := by
  have h := drain_ownership_spec.2.2.2 [⟨true, true, true, true⟩]
    (TimerState.armed 1 0) oW3 [LoopEvent.timerFired] sEndW3 (by decide)
  exact ⟨h.1, h.2.1 (by decide) 0 (by decide)⟩

/-- C6: a run (download or upload alike) in which no connection registers
successfully reports the "no connections initiated" abort and never enters
the reactor loop. -/
theorem run_abort_spec :
    ∀ (attempts : List ConnAttempt) (t0 : TimerState) (o : Oracle)
      (evs : List LoopEvent) (attemptsU : List ConnAttemptU) (t0u : TimerState)
      (ou : Oracle) (evsU : List LoopEvent),
      ((download_register attempts 0).1 = [] →
        (perform_download_test attempts t0 o evs).outcome
            = RunOutcome.abortNoConnections
        ∧ (perform_download_test attempts t0 o evs).loopEntered = false)
      ∧ ((upload_register attemptsU 0).1 = [] →
        (perform_upload_test true attemptsU t0u ou evsU).outcome
            = RunOutcome.abortNoConnections
        ∧ (perform_upload_test true attemptsU t0u ou evsU).loopEntered = false) := by
  intro attempts t0 o evs attemptsU t0u ou evsU
  constructor
  · intro h
    rw [perform_download_test]
    simp [h]
  · intro h
    rw [perform_upload_test]
    simp [h]

/-- C6 witness: one requested connection whose `curl_easy_init` fails, for
both directions. -/
theorem run_abort_spec_witness :
    (perform_download_test [⟨false, true, true, true⟩] TimerState.stopped
        oW []).outcome = RunOutcome.abortNoConnections
    ∧ (perform_upload_test true [⟨false, true, true, true, true, true, true⟩]
        TimerState.stopped oW []).loopEntered = false := by
  have h := run_abort_spec [⟨false, true, true, true⟩] TimerState.stopped oW []
    [⟨false, true, true, true, true, true, true⟩] TimerState.stopped oW []
  exact ⟨(h.1 (by decide)).1, (h.2 (by decide)).2⟩

/-- C7: in both run directions the number of registered connections never
exceeds the number requested and equals the number of fully successful
attempts; every connection that got an easy handle is either registered or
released during the registration loop (the run continues past individual
failures); and the final report shows exactly the successfully registered
count. -/
theorem register_failure_spec :
    ∀ (attempts : List ConnAttempt) (t0 : TimerState) (o : Oracle)
      (evs : List LoopEvent) (attemptsU : List ConnAttemptU) (t0u : TimerState)
      (ou : Oracle) (evsU : List LoopEvent),
      ((download_register attempts 0).1.length ≤ attempts.length
        ∧ (download_register attempts 0).1.length
            = (attempts.filter attemptSuccess).length
        ∧ (download_register attempts 0).1.length
              + (download_register attempts 0).2.length
            = (attempts.filter (fun a => a.init_ok)).length
        ∧ ((download_register attempts 0).1 ≠ [] →
            (perform_download_test attempts t0 o evs).reportConnections
              = some (download_register attempts 0).1.length))
      ∧ ((upload_register attemptsU 0).1.length ≤ attemptsU.length
        ∧ (upload_register attemptsU 0).1.length
            = (attemptsU.filter attemptSuccessU).length
        ∧ (upload_register attemptsU 0).1.length
              + (upload_register attemptsU 0).2.length
            = (attemptsU.filter (fun a => a.init_ok)).length
        ∧ ((upload_register attemptsU 0).1 ≠ [] →
            (perform_upload_test true attemptsU t0u ou evsU).reportConnections
              = some (upload_register attemptsU 0).1.length)) := by
  intro attempts t0 o evs attemptsU t0u ou evsU
  obtain ⟨hd1, hd2⟩ := download_register_lengths attempts 0
  obtain ⟨hu1, hu2⟩ := upload_register_lengths attemptsU 0
  refine ⟨⟨?_, hd1, hd2, ?_⟩, ?_, hu1, hu2, ?_⟩
  · rw [hd1]
    exact List.length_filter_le _ _
  · intro h
    rw [perform_download_test]
    simp [h]
  · rw [hu1]
    exact List.length_filter_le _ _
  · intro h
    rw [perform_upload_test]
    simp [h]

/-- Scenario B attempts: three download connections, the second failing at
`curl_multi_add_handle`. -/
def attemptsB : List ConnAttempt :=
  [⟨true, true, true, true⟩, ⟨true, true, true, false⟩, ⟨true, true, true, true⟩]

/-- C7 witness (Scenario B): of 3 requested connections with one failed
registration, 2 register and the report shows 2. -/
theorem register_failure_spec_witness :
    (download_register attemptsB 0).1.length = 2
    ∧ (perform_download_test attemptsB TimerState.stopped oW []).reportConnections
        = some (download_register attemptsB 0).1.length := by
  have h := register_failure_spec attemptsB TimerState.stopped oW []
    [] TimerState.stopped oW []
  exact ⟨by decide, h.1.2.2.2 (by decide)⟩

/-- The download throughput computation (main.c:331-334): doubles modelled
as exact rationals. -/
def speed_mbps_download (actual_test_duration_s : ℚ)
    (total_downloaded_bytes : Int) : ℚ :=
  if 0.001 < actual_test_duration_s ∧ 0 < total_downloaded_bytes then
    ((total_downloaded_bytes : ℚ) * 8.0) / actual_test_duration_s / (1000.0 * 1000.0)
  else 0.0

/-- The upload throughput computation (main.c:532-535): doubles modelled as
exact rationals. -/
def speed_mbps_upload (actual_test_duration_s : ℚ)
    (total_uploaded_bytes_test_run : Int) : ℚ :=
  if 0.001 < actual_test_duration_s ∧ 0 < total_uploaded_bytes_test_run then
    ((total_uploaded_bytes_test_run : ℚ) * 8.0) / actual_test_duration_s
      / (1000.0 * 1000.0)
  else 0.0

/-- C8: for both directions the computed throughput is 0 whenever the
measured duration is at most 1 ms or the byte count is 0, and otherwise
(duration above 1 ms, positive byte count) equals
`bytes * 8 / duration / 1,000,000` megabits per second. -/
theorem throughput_spec :
    ∀ (dur : ℚ) (bytes : Int),
      ((dur ≤ 0.001 ∨ bytes = 0) →
        speed_mbps_download dur bytes = 0 ∧ speed_mbps_upload dur bytes = 0)
      ∧ (0.001 < dur → 0 < bytes →
        speed_mbps_download dur bytes = (bytes : ℚ) * 8 / dur / 1000000
        ∧ speed_mbps_upload dur bytes = (bytes : ℚ) * 8 / dur / 1000000) := by
  intro dur bytes
  constructor
  · intro h
    have hcond : ¬(0.001 < dur ∧ 0 < bytes) := by
      rcases h with h | h
      · exact fun hc => absurd hc.1 (not_lt.2 h)
      · exact fun hc => by omega
    rw [speed_mbps_download, if_neg hcond, speed_mbps_upload, if_neg hcond]
    norm_num
  · intro h1 h2
    rw [speed_mbps_download, if_pos ⟨h1, h2⟩, speed_mbps_upload, if_pos ⟨h1, h2⟩]
    norm_num

/-- C8 witness: Scenario A's numbers (1048576 bytes in exactly 1 s) hit the
formula branch; a 0.5 ms duration yields throughput 0. -/
theorem throughput_spec_witness :
    speed_mbps_download 1 1048576 = (1048576 : ℚ) * 8 / 1 / 1000000
    ∧ speed_mbps_upload (1 / 2000) 5 = 0 := by
  refine ⟨((throughput_spec 1 1048576).2 (by norm_num) (by norm_num)).1, ?_⟩
  exact ((throughput_spec (1 / 2000) 5).1 (Or.inl (by norm_num))).2

end Spdtest
